import Mathlib

/-!
Verification of the control-loop / external-engine-bridge core of the
"PID vs TAU simulation" sources (tau_studio.py, tau_studio_wip.py,
pid_failure.py, sim_runner.py).

Conventions of the embedding:
* Python floats are modelled as rationals (ℚ); all the arithmetic the
  claims touch (0.5, 0.1, 0.9, clamps, scaling by 100 and 10) is exact.
* Python strings are modelled as `List Char`; the handful of string
  operations the bridge uses (split, strip, replace, substring test,
  int(s, base)) are defined below with the semantics of their Python
  counterparts on the inputs that occur.
* Python exceptions are modelled by `Option`: a function that the source
  wraps in try/except returns `none` where the Python code would raise
  (so a caught exception becomes the handler's value at the call site).
* The blocking wait of `TauInterface.compute` is modelled as a function of
  the trace of queue interactions (`QEvent` below): each `queue.get`
  either yields a line or times out, and on a timeout the process is
  polled.  `some r` means the call returned `r` within the trace,
  `none` means it was still waiting when the trace ended.
-/

/-! ## Character classes and list-of-char utilities -/

/-- Whitespace, as stripped by Python `str.strip` / skipped by regex `\s`
(the characters that actually occur in the protocol). -/
def isWS (c : Char) : Bool := c = ' ' || c = '\t' || c = '\n' || c = '\r'

/-- Hex-digit value, as accepted by Python `int(s, 16)` (codes 48-57
are `0`-`9`, 97-102 are `a`-`f`, 65-70 are `A`-`F`). -/
def hexDigit? (c : Char) : Option Nat :=
  let n := c.toNat
  if 48 ≤ n ∧ n ≤ 57 then some (n - 48)
  else if 97 ≤ n ∧ n ≤ 102 then some (n - 87)
  else if 65 ≤ n ∧ n ≤ 70 then some (n - 55)
  else none

/-- Binary-digit value, as accepted by Python `int(s, 2)`. -/
def binDigit? (c : Char) : Option Nat :=
  if c = '0' then some 0 else if c = '1' then some 1 else none

/-- Decimal-digit value, as accepted by Python `int(s)`. -/
def decDigit? (c : Char) : Option Nat :=
  let n := c.toNat
  if 48 ≤ n ∧ n ≤ 57 then some (n - 48) else none

/-- Substring test: `containsSub l pat` models Python `pat in l`. -/
def containsSub : List Char → List Char → Bool
  | [], pat => pat.isEmpty
  | c :: rest, pat => pat.isPrefixOf (c :: rest) || containsSub rest pat

/-- Python `line.split(":=")`: split on every non-overlapping occurrence
of the two-character separator `:=`, left to right. -/
def splitAssign (l : List Char) : List (List Char) :=
  match l with
  | [] => [[]]
  | [c] => [[c]]
  | c1 :: c2 :: rest =>
    if c1 = ':' && c2 = '=' then [] :: splitAssign rest
    else
      match splitAssign (c2 :: rest) with
      | [] => [[c1]]
      | h :: t => (c1 :: h) :: t

/-- Python `s.strip()` (whitespace from both ends). -/
def trimL (l : List Char) : List Char :=
  ((l.dropWhile isWS).reverse.dropWhile isWS).reverse

/-- Python `s.replace(ab, "")` for a two-character pattern `[a, b]`
(all non-overlapping occurrences removed, left to right). -/
def removePair (a b : Char) : List Char → List Char
  | [] => []
  | [c] => [c]
  | c1 :: c2 :: rest =>
    if c1 = a && c2 = b then removePair a b rest
    else c1 :: removePair a b (c2 :: rest)

/-- Python `int(s, base)` on an unsigned digit string: `none` models the
`ValueError` raised on an empty string or a non-digit character. -/
def pyIntCore (base : Nat) (dg : Char → Option Nat) (l : List Char) : Option Nat :=
  match l with
  | [] => none
  | _ =>
    l.foldl
      (fun acc c =>
        match acc, dg c with
        | some a, some d => some (a * base + d)
        | _, _ => none)
      (some 0)

/-- Python `int(s, base)` with an optional leading minus sign. -/
def pyIntSigned? (base : Nat) (dg : Char → Option Nat) (l : List Char) : Option ℤ :=
  match l with
  | [] => none
  | c :: rest =>
    if c = '-' then (pyIntCore base dg rest).map (fun n => -(n : ℤ))
    else (pyIntCore base dg (c :: rest)).map (fun n => (n : ℤ))

/-! ## Wire-value encoding (TauInterface.compute, input side) -/

/-- Python `int()` applied to a real value: truncation toward zero
(floor for non-negative values, ceiling for negative ones). -/
def pyTrunc (q : ℚ) : ℤ := if 0 ≤ q then ⌊q⌋ else ⌈q⌉

/-- Uppercase hexadecimal digit character, as produced by Python
format `X` for a digit value below 16. -/
def hexChar (d : Nat) : Char :=
  if d = 0 then '0' else if d = 1 then '1' else if d = 2 then '2'
  else if d = 3 then '3' else if d = 4 then '4' else if d = 5 then '5'
  else if d = 6 then '6' else if d = 7 then '7' else if d = 8 then '8'
  else if d = 9 then '9' else if d = 10 then 'A' else if d = 11 then 'B'
  else if d = 12 then 'C' else if d = 13 then 'D' else if d = 14 then 'E'
  else 'F'

/-- Python `f"{v:02X}"` for `v` in `[0, 255]`: exactly two uppercase hex
digits. -/
def toHex2 (v : Nat) : List Char := [hexChar (v / 16), hexChar (v % 16)]

/-- A character produced by Python uppercase-hex formatting: a decimal
digit (codes 48-57) or `A`-`F` (codes 65-70). -/
def isUpperHexDigit (c : Char) : Bool :=
  (48 ≤ c.toNat && c.toNat ≤ 57) || (65 ≤ c.toNat && c.toNat ≤ 70)

/-- The clamped scaled integer of tau_studio.py line 193:
`max(0, min(255, int(measure_vol * 100)))`. -/
def encodeVal (measure : ℚ) : ℤ := max 0 (min 255 (pyTrunc (measure * 100)))

/-- The exact token written to the child's stdin (tau_studio.py line 194):
`f"#x{val_int:02X}\n"`. -/
def encodeToken (measure : ℚ) : List Char :=
  ['#', 'x'] ++ toHex2 (encodeVal measure).toNat ++ ['\n']

/-- The encoding as the specification words it (claim C3):
`#xHH` with `HH = clamp(round(value*100), 0, 255)`.  This definition
follows the spec's words, for comparison with `encodeToken`, which is
translated from the source. -/
def specEncodeToken (measure : ℚ) : List Char :=
  ['#', 'x'] ++ toHex2 (max 0 (min 255 (round (measure * 100)))).toNat ++ ['\n']

/-! ## Output parsing, tau_studio.py variant (lines 207-217) -/

/-- The pattern `#x`. -/
def hxPat : List Char := ['#', 'x']

/-- The pattern `#b`. -/
def hbPat : List Char := ['#', 'b']

/-- The pattern `T`. -/
def tPat : List Char := ['T']

/-- The pattern `F`. -/
def fPat : List Char := ['F']

/-- The integer `res` of tau_studio.py lines 211-216: value-token
dispatch applied to the stripped text after the last `:=`.  A
`ValueError` from `int` in the `#x`/`#b` branches propagates to the
outer handler (modelled `none`); a `ValueError` in the bare-decimal
branch is caught locally and mapped to `res = 0`. -/
def parseValResTS (vp : List Char) : Option ℤ :=
  if containsSub vp hxPat then pyIntSigned? 16 hexDigit? (removePair '#' 'x' vp)
  else if containsSub vp hbPat then pyIntSigned? 2 binDigit? (removePair '#' 'b' vp)
  else if containsSub vp tPat then some 1
  else some (Option.getD (pyIntSigned? 10 decDigit? vp) 0)

/-- The returned value of the dispatch: `float(res) / 10.0`
(tau_studio.py line 217). -/
def parseValTS (vp : List Char) : Option ℚ :=
  (parseValResTS vp).map (fun z => (z : ℚ) / 10)

/-- The integer `res` for a full marker line (tau_studio.py lines
208-216): `parts = line.split(":="); val_part = parts[-1].strip()`,
then the value dispatch. -/
def parseLineResTS (line : List Char) : Option ℤ :=
  parseValResTS (trimL ((splitAssign line).getLastD []))

/-- The value returned for a full marker line: `float(res) / 10.0`. -/
def parseLineTS (line : List Char) : Option ℚ :=
  (parseLineResTS line).map (fun z => (z : ℚ) / 10)

/-- The output-marker pattern `o1[`. -/
def o1Pat : List Char := ['o', '1', '[']

/-- The assignment pattern `:=`. -/
def asgPat : List Char := [':', '=']

/-- The marker test of tau_studio.py line 207:
`"o1[" in line and ":=" in line`. -/
def hasMarker (l : List Char) : Bool :=
  containsSub l o1Pat && containsSub l asgPat

/-! ## The compute wait loop, tau_studio.py variant (lines 190-221) -/

/-- One interaction with the output queue inside the wait loop of
`TauInterface.compute`: either `queue.get(timeout=0.2)` yielded a line,
or it raised `queue.Empty` and the process was polled (`alive` is the
poll outcome: `true` for `poll() is None`). -/
inductive QEvent where
  | line (s : List Char)
  | emptyPoll (alive : Bool)
deriving DecidableEq

/-- The `while True` wait loop of tau_studio.py lines 202-220 as a
function of the queue-interaction trace.  `some r` means the call
returned `r` (with `r = none` for the Python `return None`), the outer
`none` means the loop was still running when the trace ended.  Lines
without the marker are skipped; a timeout with a live process just
continues (`continue # Keep waiting`). -/
def waitLoopResTS : List QEvent → Option (Option ℤ)
  | [] => none
  | QEvent.line s :: rest =>
    if hasMarker s then some (parseLineResTS s) else waitLoopResTS rest
  | QEvent.emptyPoll alive :: rest =>
    if alive then waitLoopResTS rest else some none

/-- The wait loop's returned value, with the integer `res` scaled to
`float(res) / 10.0` on the successful path. -/
def waitLoopTS (ev : List QEvent) : Option (Option ℚ) :=
  (waitLoopResTS ev).map (Option.map (fun (z : ℤ) => (z : ℚ) / 10))

/-- `TauInterface.compute` of tau_studio.py: `if not self.valid: return
None`; a failed stdin write (dead pipe) raises and is caught by the
outer handler (`stdinOk = false`); otherwise the call is the wait loop
over the queue trace. -/
def computeTS (valid stdinOk : Bool) (ev : List QEvent) : Option (Option ℚ) :=
  if valid then (if stdinOk then waitLoopTS ev else some none) else some none

/-! ## ANSI stripping and the wip bridge (tau_studio_wip.py) -/

/-- The escape character. -/
def escChar : Char := Char.ofNat 27

/-- CSI parameter byte class `[0-?]`. -/
def isCsiParam (c : Char) : Bool := '0' ≤ c && c ≤ '?'

/-- CSI intermediate byte class (space through slash). -/
def isCsiInter (c : Char) : Bool := ' ' ≤ c && c ≤ '/'

/-- CSI final byte class `[@-~]`. -/
def isCsiFinal (c : Char) : Bool := '@' ≤ c && c ≤ '~'

/-- Single-character escape class `[@-Z\\-_]`. -/
def isEscSingle (c : Char) : Bool := ('@' ≤ c && c ≤ 'Z') || ('\\' ≤ c && c ≤ '_')

/-- Worker for `stripAnsi`; the fuel is an upper bound on the number of
characters consumed (each step consumes at least one), so `length` fuel
is always sufficient. -/
def stripAnsiFuel : Nat → List Char → List Char
  | 0, l => l
  | Nat.succ n, l =>
    match l with
    | [] => []
    | c :: rest =>
      if c = escChar then
        match rest with
        | [] => [c]
        | d :: rest2 =>
          if d = '[' then
            match (rest2.dropWhile isCsiParam).dropWhile isCsiInter with
            | f :: rest3 =>
              if isCsiFinal f then stripAnsiFuel n rest3
              else c :: stripAnsiFuel n rest
            | [] => c :: stripAnsiFuel n rest
          else if isEscSingle d then stripAnsiFuel n rest2
          else c :: stripAnsiFuel n rest
      else c :: stripAnsiFuel n rest

/-- `TauInterface._clean_text` of tau_studio_wip.py: remove every match
of its ANSI escape pattern (ESC followed by a single escape-class byte,
or ESC `[` then parameter bytes, intermediate bytes and a final
byte). -/
def stripAnsi (l : List Char) : List Char := stripAnsiFuel l.length l

/-- `TauInterface._read_until_token` of tau_studio_wip.py (lines
175-184) with time modelled in polling ticks: each tick drains the
chunk that arrived during it and re-checks the token; the loop gives up
when the tick budget (the timeout) is exhausted.  Returns the buffer
and the number of ticks used. -/
def readUntilWip (token : List Char) : List Char → List (List Char) → Nat → List Char × Nat
  | buf, _, 0 => (buf, 0)
  | buf, chunks, Nat.succ n =>
    let buf2 := buf ++ chunks.headD []
    if containsSub (stripAnsi buf2) token then (buf2, 1)
    else
      let r := readUntilWip token buf2 chunks.tail n
      (r.1, r.2 + 1)

/-- Maximal nonempty run of hex digits (`[0-9a-fA-F]+`, greedy). -/
def hexRun (l : List Char) : Option (List Char) :=
  let r := l.takeWhile (fun c => (hexDigit? c).isSome)
  if r.isEmpty then none else some r

/-- The class `[xXbB]`. -/
def isXB (c : Char) : Bool := c = 'x' || c = 'X' || c = 'b' || c = 'B'

/-- First alternative `[#]?[xXbB]?[0-9a-fA-F]+` of the wip value regex,
anchored at the head of `l`, with the greedy/backtracking order of the
regex engine (both optionals consumed first, then dropped one by
one). -/
def altAt (l : List Char) : Option (List Char) :=
  match l with
  | [] => none
  | c0 :: rest0 =>
    if c0 = '#' then
      match rest0 with
      | [] => none
      | c1 :: rest1 =>
        if isXB c1 then
          match hexRun rest1 with
          | some r => some ('#' :: c1 :: r)
          | none =>
            match hexRun rest0 with
            | some r => some ('#' :: r)
            | none => none
        else
          match hexRun rest0 with
          | some r => some ('#' :: r)
          | none => none
    else if isXB c0 then
      match hexRun rest0 with
      | some r => some (c0 :: r)
      | none => hexRun l
    else hexRun l

/-- The full alternation `([#]?[xXbB]?[0-9a-fA-F]+|T|F)` anchored at the
head of `l` (alternatives tried left to right). -/
def matchTokAt (l : List Char) : Option (List Char) :=
  match altAt l with
  | some g => some g
  | none =>
    match l with
    | [] => none
    | c :: _ =>
      if c = 'T' then some tPat else if c = 'F' then some fPat else none

/-- `re.search(r":=\s*([#]?[xXbB]?[0-9a-fA-F]+|T|F)", text)` of
tau_studio_wip.py line 224: leftmost `:=` after which, skipping
whitespace, the value alternation matches; returns the captured
group. -/
def findTok : List Char → Option (List Char)
  | [] => none
  | c :: rest =>
    if c = ':' && rest.take 1 = ['='] then
      match matchTokAt ((rest.drop 1).dropWhile isWS) with
      | some g => some g
      | none => findTok rest
    else findTok rest

/-- The integer `res` of tau_studio_wip.py lines 231-237 (as
tau_studio's dispatch, plus the explicit `F` branch). -/
def wipParseRes (vp : List Char) : Option ℤ :=
  if containsSub vp hxPat then pyIntSigned? 16 hexDigit? (removePair '#' 'x' vp)
  else if containsSub vp hbPat then pyIntSigned? 2 binDigit? (removePair '#' 'b' vp)
  else if containsSub vp tPat then some 1
  else if containsSub vp fPat then some 0
  else some (Option.getD (pyIntSigned? 10 decDigit? vp) 0)

/-- The returned value of the wip dispatch: `float(res) / 10.0`
(tau_studio_wip.py line 239). -/
def wipParseVal (vp : List Char) : Option ℚ :=
  (wipParseRes vp).map (fun z => (z : ℚ) / 10)

/-- The parse stage of wip `compute` (lines 219-243) on the accumulated
response buffer: clean, regex-search; no match is the `return None`
branch. -/
def wipParse (resp : List Char) : Option ℚ :=
  match findTok (stripAnsi resp) with
  | none => none
  | some vp => wipParseVal vp

/-! ## Physics plants -/

/-- `PistonPump` of tau_studio.py (lines 70-74). -/
structure PumpTS where
  amp : ℚ

/-- `PistonPump.update` of tau_studio.py: first-order lag
`amp += (target - amp) * 0.5`, measurement
`max(0, amp * 0.1 * load + noise)`. Returns (measurement, new state). -/
def PumpTS.update (p : PumpTS) (target noise load : ℚ) : ℚ × PumpTS :=
  let amp2 := p.amp + (target - p.amp) * (1/2)
  (max 0 (amp2 * (1/10) * load + noise), ⟨amp2⟩)

/-- `PistonPump` of tau_studio_wip.py (lines 42-54): heavy-inertia
variant with a velocity state. -/
structure PumpWip where
  amp : ℚ
  velocity : ℚ

/-- `PistonPump.update` of tau_studio_wip.py: damped
force/velocity/position chain, then `amp` clamped to `[0, 20]`. -/
def PumpWip.update (p : PumpWip) (targetForce noise load : ℚ) : ℚ × PumpWip :=
  let force := targetForce - p.amp * (1/2)
  let accel := force * (1/10)
  let v1 := p.velocity + accel
  let v2 := v1 * (9/10)
  let amp1 := p.amp + v2
  let amp2 := max 0 (min 20 amp1)
  (max 0 (amp2 * (1/10) * load + noise), ⟨amp2, v2⟩)

/-! ## PID controllers -/

/-- State of `PID` in tau_studio.py / tau_studio_wip.py (gains, clamp
flag, previous error, integral accumulator). -/
structure PIDState where
  kp : ℚ
  ki : ℚ
  kd : ℚ
  clamp : Bool
  prevErr : ℚ
  integral : ℚ

/-- `PID.compute` of tau_studio.py (lines 80-88): integral clamp bound
50. Returns (output, new state). -/
def pidStepTS (s : PIDState) (setpoint measure : ℚ) : ℚ × PIDState :=
  let err := setpoint - measure
  let i1 := s.integral + err
  let i2 := if s.clamp then max (-50) (min 50 i1) else i1
  (s.kp * err + s.ki * i2 + s.kd * (err - s.prevErr),
   { s with prevErr := err, integral := i2 })

/-- `PID.compute` of tau_studio_wip.py (lines 60-68): tighter integral
clamp bound 20. -/
def pidStepWip (s : PIDState) (setpoint measure : ℚ) : ℚ × PIDState :=
  let err := setpoint - measure
  let i1 := s.integral + err
  let i2 := if s.clamp then max (-20) (min 20 i1) else i1
  (s.kp * err + s.ki * i2 + s.kd * (err - s.prevErr),
   { s with prevErr := err, integral := i2 })

/-- A sequence of `compute(setpoint, measure)` calls on the tau_studio
PID. -/
def runTS (s : PIDState) (calls : List (ℚ × ℚ)) : PIDState :=
  calls.foldl (fun st c => (pidStepTS st c.1 c.2).2) s

/-- A sequence of `compute(setpoint, measure)` calls on the wip PID. -/
def runWip (s : PIDState) (calls : List (ℚ × ℚ)) : PIDState :=
  calls.foldl (fun st c => (pidStepWip st c.1 c.2).2) s

/-- State of `BadPID` in pid_failure.py (lines 50-54): no clamp flag at
all. -/
structure BadPIDState where
  kp : ℚ
  ki : ℚ
  kd : ℚ
  prevErr : ℚ
  integral : ℚ

/-- `BadPID.compute` of pid_failure.py (lines 56-71): unclamped integral
accumulation. -/
def badStep (s : BadPIDState) (setpoint measure : ℚ) : ℚ × BadPIDState :=
  let err := setpoint - measure
  let i1 := s.integral + err
  (s.kp * err + s.ki * i1 + s.kd * (err - s.prevErr),
   { s with prevErr := err, integral := i1 })

/-- A sequence of `compute` calls on `BadPID`. -/
def runBad (s : BadPIDState) (calls : List (ℚ × ℚ)) : BadPIDState :=
  calls.foldl (fun st c => (badStep st c.1 c.2).2) s

/-! ## Control-loop steps -/

/-- The per-step state of `TauStudioApp.run_scenario` in tau_studio.py:
two plants, the PID, and the two current commands. -/
structure LoopStateTS where
  plantPid : PumpTS
  plantTau : PumpTS
  pid : PIDState
  ampPid : ℚ
  ampTau : ℚ

/-- One iteration of the loop body of `run_scenario` (tau_studio.py
lines 365-376).  The bridge result is the value `tau.compute(m_t)`
returned for this step (an oracle parameter, since it is produced by
the external process): `if tgt is not None: amp_tau = tgt`. -/
def scenStepTS (s : LoopStateTS) (noise load : ℚ) (tauRes : Option ℚ) : LoopStateTS :=
  let mp := s.plantPid.update s.ampPid noise load
  let pidOut := pidStepTS s.pid (1/2) mp.1
  let ampPid2 := max 0 (min 10 (s.ampPid + pidOut.1))
  let mt := s.plantTau.update s.ampTau noise load
  let ampTau2 := match tauRes with | some v => v | none => s.ampTau
  ⟨mp.2, mt.2, pidOut.2, ampPid2, ampTau2⟩

/-- The per-frame state of `TauStudioApp.update_frame` in
tau_studio_wip.py. -/
structure LoopStateWip where
  plantPid : PumpWip
  plantTau : PumpWip
  pid : PIDState
  ampPid : ℚ
  ampTau : ℚ

/-- One frame of `update_frame` (tau_studio_wip.py lines 408-422), with
the bridge result as an oracle parameter; both plants run with
`load = 1.0`. -/
def frameStepWip (s : LoopStateWip) (target noise : ℚ) (tauRes : Option ℚ) : LoopStateWip :=
  let mp := s.plantPid.update s.ampPid noise 1
  let mt := s.plantTau.update s.ampTau noise 1
  let pidOut := pidStepWip s.pid target mp.1
  let ampPid2 := max 0 (min 10 (s.ampPid + pidOut.1))
  let ampTau2 := match tauRes with | some v => v | none => s.ampTau
  ⟨mp.2, mt.2, pidOut.2, ampPid2, ampTau2⟩

/-! ## Concrete lines used by the round-trip and parse-failure claims -/

/-- The output line `o1[0] := #xHH` for the wire byte `v`. -/
def mkOutLine (v : Nat) : List Char :=
  "o1[0] := ".toList ++ ['#', 'x'] ++ toHex2 v

/-- A marker line whose value token matches no rule of the value
grammar. -/
def xyzLine : List Char := "o1[0] := xyz".toList

/-- The bare non-grammar token of `xyzLine`. -/
def xyzTok : List Char := "xyz".toList

/-- A response buffer in which the wip value regex finds no match. -/
def helloResp : List Char := "hello".toList

/-- The output line carrying the maximal wire byte. -/
def maxLine : List Char := "o1[0] := #xFF".toList

/-! ## Helper lemmas -/

/-- Every uppercase-hex digit character decodes back to its value, is in
the uppercase-hex class, and is not a minus sign. -/
theorem hexChar_spec : ∀ d : Nat, d < 16 →
    hexDigit? (hexChar d) = some d ∧
    isUpperHexDigit (hexChar d) = true ∧
    hexChar d ≠ '-' := by decide

/-- The bridge's own hex parser decodes any two uppercase-hex digits. -/
theorem hex2_decode : ∀ a : Nat, a < 16 → ∀ b : Nat, b < 16 →
    pyIntSigned? 16 hexDigit? [hexChar a, hexChar b] =
      some ((16 * a + b : ℕ) : ℤ) := by decide

/-- If no queued line carries the output marker and no empty poll ever
observes a dead process, the tau_studio wait loop never returns. -/
theorem waitLoopResTS_silent : ∀ (ev : List QEvent),
    (∀ s, QEvent.line s ∈ ev → hasMarker s = false) →
    QEvent.emptyPoll false ∉ ev →
    waitLoopResTS ev = none := by
  intro ev
  induction ev with
  | nil => intro _ _; rfl
  | cons e rest ih =>
    intro hline hdead
    cases e with
    | line s =>
      have hm : hasMarker s = false := hline s (List.mem_cons_self _ _)
      simp only [waitLoopResTS, hm, Bool.false_eq_true, if_false]
      exact ih (fun s2 hs2 => hline s2 (List.mem_cons_of_mem _ hs2))
        (fun h => hdead (List.mem_cons_of_mem _ h))
    | emptyPoll a =>
      cases a with
      | false => exact absurd (List.mem_cons_self _ _) hdead
      | true =>
        simp only [waitLoopResTS, if_true]
        exact ih (fun s2 hs2 => hline s2 (List.mem_cons_of_mem _ hs2))
          (fun h => hdead (List.mem_cons_of_mem _ h))

/-- If no queued line carries the output marker and some empty poll
observes a dead process, the tau_studio wait loop returns `None`. -/
theorem waitLoopResTS_dead : ∀ (ev : List QEvent),
    (∀ s, QEvent.line s ∈ ev → hasMarker s = false) →
    QEvent.emptyPoll false ∈ ev →
    waitLoopResTS ev = some none := by
  intro ev
  induction ev with
  | nil => intro _ h; simp at h
  | cons e rest ih =>
    intro hline hdead
    cases e with
    | line s =>
      have hm : hasMarker s = false := hline s (List.mem_cons_self _ _)
      have hrest : QEvent.emptyPoll false ∈ rest := by
        rcases List.mem_cons.mp hdead with h | h
        · exact absurd h (by simp)
        · exact h
      simp only [waitLoopResTS, hm, Bool.false_eq_true, if_false]
      exact ih (fun s2 hs2 => hline s2 (List.mem_cons_of_mem _ hs2)) hrest
    | emptyPoll a =>
      cases a with
      | false => rfl
      | true =>
        have hrest : QEvent.emptyPoll false ∈ rest := by
          rcases List.mem_cons.mp hdead with h | h
          · exact absurd h (by simp)
          · exact h
        simp only [waitLoopResTS, if_true]
        exact ih (fun s2 hs2 => hline s2 (List.mem_cons_of_mem _ hs2)) hrest

/-! ## Claim theorems -/

/-- C1: `TauInterface.compute` never raises to its caller: if the bridge
is invalid (executable missing, or logic rejected during handshake), or
the stdin write fails on a dead pipe, or the child process has exited
(an empty poll observes the dead process and no marker line is ever
received), the call returns `None` — modelled by the total function
`computeTS` returning `some none` in each of these situations. -/
theorem C1_compute_no_result (valid stdinOk : Bool) (ev : List QEvent)
    (hline : ∀ s, QEvent.line s ∈ ev → hasMarker s = false)
    (hdead : QEvent.emptyPoll false ∈ ev) :
    computeTS false stdinOk ev = some none ∧
    computeTS valid false ev = some none ∧
    computeTS true true ev = some none := by
  refine ⟨rfl, ?_, ?_⟩
  · cases valid <;> rfl
  · show waitLoopTS ev = some none
    unfold waitLoopTS
    rw [waitLoopResTS_dead ev hline hdead]
    rfl

/-- Witness for C1 at the one-event trace in which an empty poll finds
the process dead. -/
theorem C1_compute_no_result_witness :
    computeTS false true [QEvent.emptyPoll false] = some none ∧
    computeTS true false [QEvent.emptyPoll false] = some none ∧
    computeTS true true [QEvent.emptyPoll false] = some none :=
  C1_compute_no_result true true [QEvent.emptyPoll false]
    (by intro s hs; simp at hs) (by simp)

/-- C2 counterexample: in tau_studio.py the wait of `compute` is NOT
bounded.  With a live child that produces no output, every queue read
times out, the poll sees a live process, and the loop continues: for
silent-live traces of every length the call has still not returned, so
no wait bound exists.  (The per-call bound holds only for the wip
variant; see the amended theorem.) -/
theorem C2_counterexample :
    ¬ ∃ (n : ℕ) (r : Option ℚ),
        computeTS true true (List.replicate n (QEvent.emptyPoll true)) = some r := by
  rintro ⟨n, r, h⟩
  have hnone : ∀ m : ℕ,
      waitLoopResTS (List.replicate m (QEvent.emptyPoll true)) = none := by
    intro m
    induction m with
    | zero => rfl
    | succ k ih => simpa [List.replicate_succ, waitLoopResTS] using ih
  have hc : computeTS true true (List.replicate n (QEvent.emptyPoll true)) = none := by
    show waitLoopTS (List.replicate n (QEvent.emptyPoll true)) = none
    unfold waitLoopTS
    rw [hnone n]
    rfl
  rw [hc] at h
  exact Option.noConfusion h

/-- C2 amended: per-call waiting is bounded in the wip variant — each
`_read_until_token` loop runs at most its tick budget — while in
tau_studio.py `compute` returns only once a marker line arrives or an
empty poll observes a dead process; on a trace with neither, the call
is still waiting, however long the trace. -/
theorem C2_amended (token buf : List Char) (chunks : List (List Char)) (n : ℕ)
    (ev : List QEvent)
    (hline : ∀ s, QEvent.line s ∈ ev → hasMarker s = false)
    (hdead : QEvent.emptyPoll false ∉ ev) :
    (readUntilWip token buf chunks n).2 ≤ n ∧
    computeTS true true ev = none := by
  constructor
  · induction n generalizing buf chunks with
    | zero => simp [readUntilWip]
    | succ k ih =>
      simp only [readUntilWip]
      split
      · simp
      · simpa using Nat.succ_le_succ (ih _ _)
  · show waitLoopTS ev = none
    unfold waitLoopTS
    rw [waitLoopResTS_silent ev hline hdead]
    rfl

/-- Witness for C2 amended: a concrete tick budget and the one-event
silent-live trace. -/
theorem C2_amended_witness :
    (readUntilWip o1Pat [] [] 500).2 ≤ 500 ∧
    computeTS true true [QEvent.emptyPoll true] = none :=
  C2_amended o1Pat [] [] 500 [QEvent.emptyPoll true]
    (by intro s hs; simp at hs) (by simp)

/-- C3 counterexample: the claim says the scaled value is rounded, but
tau_studio.py line 193 truncates (`int(measure_vol * 100)`).  At
measurement 0.559 the code sends `#x37\n` (trunc 55.9 = 55) while the
claimed encoding is `#x38\n` (round 55.9 = 56). -/
theorem C3_counterexample :
    encodeToken (559/1000) = "#x37\n".toList ∧
    specEncodeToken (559/1000) = "#x38\n".toList ∧
    encodeToken (559/1000) ≠ specEncodeToken (559/1000) := by
  have h1 : encodeVal (559/1000) = 55 := by
    unfold encodeVal pyTrunc
    norm_num
  have h2 : (max 0 (min 255 (round ((559 : ℚ)/1000 * 100)))) = 56 := by
    norm_num [round_eq]
  refine ⟨?_, ?_, ?_⟩
  · unfold encodeToken
    rw [h1]
    decide
  · unfold specEncodeToken
    rw [h2]
    decide
  · unfold encodeToken specEncodeToken
    rw [h1, h2]
    decide

/-- C3 amended: the token written to the child for measurement `m` is
exactly `#xHH\n` where `HH` is the two-digit uppercase hexadecimal
rendering of `clamp(trunc(m*100), 0, 255)` — truncation toward zero,
not rounding.  The clamped value lies in `[0, 255]`, both digit
characters are uppercase-hex, and the bridge's own hex parser decodes
them back to the clamped value. -/
theorem C3_amended (m : ℚ) :
    encodeToken m = ['#', 'x'] ++ toHex2 (encodeVal m).toNat ++ ['\n'] ∧
    0 ≤ encodeVal m ∧ encodeVal m ≤ 255 ∧
    ∃ d1 d2 : Char,
      toHex2 (encodeVal m).toNat = [d1, d2] ∧
      isUpperHexDigit d1 = true ∧ isUpperHexDigit d2 = true ∧
      pyIntSigned? 16 hexDigit? [d1, d2] = some (encodeVal m) := by
  have h0 : 0 ≤ encodeVal m := le_max_left _ _
  have h255 : encodeVal m ≤ 255 := max_le (by norm_num) (min_le_left _ _)
  refine ⟨rfl, h0, h255, hexChar ((encodeVal m).toNat / 16),
    hexChar ((encodeVal m).toNat % 16), rfl, ?_, ?_, ?_⟩
  · exact (hexChar_spec _ (by
      have := Int.toNat_le.mpr h255
      omega)).2.1
  · exact (hexChar_spec _ (Nat.mod_lt _ (by norm_num))).2.1
  · have hvlt : (encodeVal m).toNat < 256 := by
      have := Int.toNat_le.mpr h255
      omega
    rw [hex2_decode _ (by omega) _ (Nat.mod_lt _ (by norm_num))]
    rw [Nat.div_add_mod]
    exact congrArg _ (Int.toNat_of_nonneg h0)

/-- C4: at a control-loop step the bridge-side command is left unchanged
when `compute` yields no result and is replaced by the result when one
is present — in both the tau_studio `run_scenario` loop and the wip
`update_frame` loop. -/
theorem C4_hold_command :
    (∀ (s : LoopStateTS) (noise load : ℚ),
        (scenStepTS s noise load none).ampTau = s.ampTau) ∧
    (∀ (s : LoopStateTS) (noise load v : ℚ),
        (scenStepTS s noise load (some v)).ampTau = v) ∧
    (∀ (w : LoopStateWip) (target noise : ℚ),
        (frameStepWip w target noise none).ampTau = w.ampTau) ∧
    (∀ (w : LoopStateWip) (target noise v : ℚ),
        (frameStepWip w target noise (some v)).ampTau = v) :=
  ⟨fun _ _ _ => rfl, fun _ _ _ _ => rfl, fun _ _ _ => rfl, fun _ _ _ _ => rfl⟩

/-- After one tau_studio PID step with clamping on, the integral lies in
`[-50, 50]`. -/
theorem pidStepTS_integral_bounds (s : PIDState) (hs : s.clamp = true) (a b : ℚ) :
    -50 ≤ ((pidStepTS s a b).2).integral ∧ ((pidStepTS s a b).2).integral ≤ 50 := by
  have h : ((pidStepTS s a b).2).integral = max (-50) (min 50 (s.integral + (a - b))) := by
    simp [pidStepTS, hs]
  rw [h]
  exact ⟨le_max_left _ _, max_le (by norm_num) (min_le_left _ _)⟩

/-- After one wip PID step with clamping on, the integral lies in
`[-20, 20]`. -/
theorem pidStepWip_integral_bounds (s : PIDState) (hs : s.clamp = true) (a b : ℚ) :
    -20 ≤ ((pidStepWip s a b).2).integral ∧ ((pidStepWip s a b).2).integral ≤ 20 := by
  have h : ((pidStepWip s a b).2).integral = max (-20) (min 20 (s.integral + (a - b))) := by
    simp [pidStepWip, hs]
  rw [h]
  exact ⟨le_max_left _ _, max_le (by norm_num) (min_le_left _ _)⟩

/-- Integral bound after any nonempty call sequence, tau_studio PID. -/
theorem runTS_integral_bounds : ∀ (calls : List (ℚ × ℚ)) (s : PIDState) (c : ℚ × ℚ),
    s.clamp = true →
    -50 ≤ (runTS s (c :: calls)).integral ∧ (runTS s (c :: calls)).integral ≤ 50 := by
  intro calls
  induction calls with
  | nil =>
    intro s c hs
    exact pidStepTS_integral_bounds s hs c.1 c.2
  | cons c2 rest ih =>
    intro s c hs
    exact ih ((pidStepTS s c.1 c.2).2) c2 (show s.clamp = true from hs)

/-- Integral bound after any nonempty call sequence, wip PID. -/
theorem runWip_integral_bounds : ∀ (calls : List (ℚ × ℚ)) (s : PIDState) (c : ℚ × ℚ),
    s.clamp = true →
    -20 ≤ (runWip s (c :: calls)).integral ∧ (runWip s (c :: calls)).integral ≤ 20 := by
  intro calls
  induction calls with
  | nil =>
    intro s c hs
    exact pidStepWip_integral_bounds s hs c.1 c.2
  | cons c2 rest ih =>
    intro s c hs
    exact ih ((pidStepWip s c.1 c.2).2) c2 (show s.clamp = true from hs)

/-- C5: with clamping enabled, the integral field lies within the fixed
clamp bound after every call of any finite sequence of `compute` calls
— bound 50 for the tau_studio PID and bound 20 for the wip PID.  (The
start states are arbitrary, so the conclusion applies to the state
after each individual call of a longer run.) -/
theorem C5_integral_clamped (s t : PIDState) (calls : List (ℚ × ℚ))
    (hs : s.clamp = true) (ht : t.clamp = true) (hne : calls ≠ []) :
    (-50 ≤ (runTS s calls).integral ∧ (runTS s calls).integral ≤ 50) ∧
    (-20 ≤ (runWip t calls).integral ∧ (runWip t calls).integral ≤ 20) := by
  match calls with
  | [] => exact absurd rfl hne
  | c :: rest =>
    exact ⟨runTS_integral_bounds rest s c hs, runWip_integral_bounds rest t c ht⟩

/-- Witness for C5: one call on a clamped controller with unit gains. -/
theorem C5_integral_clamped_witness :
    (-50 ≤ (runTS ⟨1, 1, 1, true, 0, 0⟩ [(1, 0)]).integral ∧
      (runTS ⟨1, 1, 1, true, 0, 0⟩ [(1, 0)]).integral ≤ 50) ∧
    (-20 ≤ (runWip ⟨1, 1, 1, true, 0, 0⟩ [(1, 0)]).integral ∧
      (runWip ⟨1, 1, 1, true, 0, 0⟩ [(1, 0)]).integral ≤ 20) :=
  C5_integral_clamped ⟨1, 1, 1, true, 0, 0⟩ ⟨1, 1, 1, true, 0, 0⟩ [(1, 0)]
    rfl rfl (by simp)

/-- The unclamped integral after `n` constant-error calls. -/
theorem runBad_replicate (e : ℚ) : ∀ (n : ℕ) (s : BadPIDState),
    (runBad s (List.replicate n (e, 0))).integral = s.integral + n * e := by
  intro n
  induction n with
  | zero => intro s; simp [runBad]
  | succ k ih =>
    intro s
    rw [List.replicate_succ]
    show (runBad ((badStep s e 0).2) (List.replicate k (e, 0))).integral = _
    rw [ih]
    show s.integral + (e - 0) + k * e = s.integral + (k + 1 : ℕ) * e
    push_cast
    ring

/-- C6: with clamping absent (`BadPID` of pid_failure.py), a call with
strictly positive error strictly increases the integral, and feeding a
constant positive error long enough drives the integral past any fixed
bound (integral wind-up). -/
theorem C6_windup (s : BadPIDState) (sp msr B e : ℚ)
    (hpos : 0 < sp - msr) (he : 0 < e) :
    s.integral < ((badStep s sp msr).2).integral ∧
    ∃ n : ℕ, B < (runBad s (List.replicate n (e, 0))).integral := by
  constructor
  · show s.integral < s.integral + (sp - msr)
    linarith
  · obtain ⟨n, hn⟩ := exists_nat_gt ((B - s.integral) / e)
    refine ⟨n, ?_⟩
    rw [runBad_replicate]
    have hlt : B - s.integral < n * e := by
      rwa [div_lt_iff₀ he] at hn
    linarith

/-- Witness for C6: unit error and bound 100 from the zero state. -/
theorem C6_windup_witness :
    (⟨1, 1, 1, 0, 0⟩ : BadPIDState).integral <
      ((badStep ⟨1, 1, 1, 0, 0⟩ 1 0).2).integral ∧
    ∃ n : ℕ, 100 <
      (runBad (⟨1, 1, 1, 0, 0⟩ : BadPIDState) (List.replicate n ((1 : ℚ), 0))).integral :=
  C6_windup ⟨1, 1, 1, 0, 0⟩ 1 0 100 1 (by norm_num) (by norm_num)

set_option maxRecDepth 10000 in
/-- The integer result of the wait loop on a single round-trip line. -/
theorem waitLoopResTS_roundtrip : ∀ v : Fin 256,
    waitLoopResTS [QEvent.line (mkOutLine v.val)] = some (some (v.val : ℤ)) := by
  decide

/-- C7: wire-value round-trip — for every byte `v` in `[0, 255]`, a call
whose queue delivers the line `o1[0] := #xHH` (with `HH` the two-digit
uppercase hex of `v`, the same encoding `compute` uses for inputs)
decodes `v` and returns `v / 10.0`. -/
theorem C7_roundtrip (v : Fin 256) :
    computeTS true true [QEvent.line (mkOutLine v.val)] =
      some (some ((v.val : ℚ) / 10)) := by
  show waitLoopTS [QEvent.line (mkOutLine v.val)] = _
  unfold waitLoopTS
  rw [waitLoopResTS_roundtrip v]
  simp

/-- C8 counterexample: a marker line whose value token matches none of
the grammar rules does NOT yield "no result" in tau_studio.py — the
token falls to the bare-decimal branch, whose `ValueError` is caught
and mapped to `res = 0`, so `compute` returns the numeric value 0.0. -/
theorem C8_counterexample :
    computeTS true true [QEvent.line xyzLine] = some (some 0) ∧
    some (0 : ℚ) ≠ (none : Option ℚ) := by
  constructor
  · have h : waitLoopResTS [QEvent.line xyzLine] = some (some 0) := by decide
    show waitLoopTS [QEvent.line xyzLine] = _
    unfold waitLoopTS
    rw [h]
    norm_num
  · simp

/-- C8 amended: in tau_studio.py a value token containing no `#x`, no
`#b` and no `T` and failing decimal parsing yields the numeric value
0.0 (not "no result"); only the wip variant yields "no result" when its
value regex finds no grammar token in the response. -/
theorem C8_amended :
    (∀ vp : List Char,
        containsSub vp hxPat = false → containsSub vp hbPat = false →
        containsSub vp tPat = false → pyIntSigned? 10 decDigit? vp = none →
        parseValTS vp = some 0) ∧
    (∀ resp : List Char, findTok (stripAnsi resp) = none → wipParse resp = none) := by
  constructor
  · intro vp h1 h2 h3 h4
    simp [parseValTS, parseValResTS, h1, h2, h3, h4]
  · intro resp h
    unfold wipParse
    rw [h]

/-- Witness for C8 amended: the token `xyz` and the response `hello`. -/
theorem C8_amended_witness :
    parseValTS xyzTok = some 0 ∧ wipParse helloResp = none :=
  ⟨C8_amended.1 xyzTok (by decide) (by decide) (by decide) (by decide),
   C8_amended.2 helloResp (by decide)⟩

/-- C9 counterexample: the tau_studio.py `PistonPump.update` does not
clamp the amplitude field at all — from rest, a commanded target of -4
drives the amplitude to -2, outside `[0, AMP_MAX]` for any
non-negative `AMP_MAX`. -/
theorem C9_counterexample :
    ((PumpTS.update ⟨0⟩ (-4) 0 1).2).amp = -2 ∧
    ¬ (0 ≤ ((PumpTS.update ⟨0⟩ (-4) 0 1).2).amp) := by
  have h : ((PumpTS.update ⟨0⟩ (-4) 0 1).2).amp = -2 := by
    show (0 : ℚ) + (-4 - 0) * (1/2) = -2
    norm_num
  refine ⟨h, ?_⟩
  rw [h]
  norm_num

/-- C9 amended: only the wip (higher-fidelity) `PistonPump` clamps its
amplitude, to `[0, 20]`, after every update; the tau_studio variant
applies no clamp to the amplitude field — only the returned measurement
is floored at 0. -/
theorem C9_amended :
    (∀ (p : PumpWip) (t n l : ℚ),
        0 ≤ ((PumpWip.update p t n l).2).amp ∧
        ((PumpWip.update p t n l).2).amp ≤ 20) ∧
    (∀ (p : PumpTS) (t n l : ℚ), 0 ≤ (PumpTS.update p t n l).1) :=
  ⟨fun _ _ _ _ => ⟨le_max_left _ _, max_le (by norm_num) (min_le_left _ _)⟩,
   fun _ _ _ _ => le_max_left _ _⟩

/-- C10 (implicit claim, confirmed): the loop clamps the PID-side
command to `[0, 10]` at every step, but applies a bridge result without
clamping; the wire line `o1[0] := #xFF` decodes to 255 and `compute`
returns 25.5, so that step's bridge-side commanded amplitude is 25.5,
above the mechanical limit 10. -/
theorem C10_bridge_exceeds_limit :
    (∀ (s : LoopStateTS) (noise load : ℚ) (r : Option ℚ),
        0 ≤ (scenStepTS s noise load r).ampPid ∧
        (scenStepTS s noise load r).ampPid ≤ 10) ∧
    parseLineTS maxLine = some ((51 : ℚ) / 2) ∧
    (∀ (s : LoopStateTS) (noise load : ℚ),
        (scenStepTS s noise load (some ((51 : ℚ) / 2))).ampTau = (51 : ℚ) / 2) ∧
    (10 : ℚ) < (51 : ℚ) / 2 := by
  refine ⟨fun s noise load r =>
      ⟨le_max_left _ _, max_le (by norm_num) (min_le_left _ _)⟩,
    ?_, fun s noise load => rfl, by norm_num⟩
  have h : parseLineResTS maxLine = some 255 := by decide
  unfold parseLineTS
  rw [h]
  norm_num
